import Mathlib

/-!
Verification of the custom `Conv2D` layer in `src/layers/Conv2D.py`.

The Python class is shallowly embedded below.  Python integers are `ℤ`
(Python `//` is `Int.fdiv`, floor division); tensor entries are modelled as
integers, a subdomain of the floats on which the arithmetic of the claims is
exact; the ambient `keras.backend.image_data_format()` setting is passed to
the constructor explicitly; the lazily built weights `self.kernel` and
`self.bias` are passed to `call` explicitly.  The keras utility
`conv_utils.conv_output_length` is not part of this repository; it is
embedded from its library definition for the two padding modes the layer
uses.  The host framework's random draw for Glorot-uniform weights is
external; an allocation records which distribution is requested.
-/

/-- The two padding modes the layer uses; the Python field holds the
corresponding string. -/
inductive Padding
| VALID
| SAME
deriving DecidableEq

/-- The process-wide image data format the constructor reads (passed
explicitly here). -/
inductive DataFormat
| channels_first
| channels_last
deriving DecidableEq

/-- The resolved pointwise activation functions this development needs:
`relu`, and `linear` (the identity). -/
inductive ActFn
| relu
| linear
deriving DecidableEq

/-- Elementwise application of a resolved activation to one tensor entry. -/
def applyAct : ActFn → ℤ → ℤ
| ActFn.relu, x => max x 0
| ActFn.linear, x => x

/-- `keras.activations.get` on a name: resolves the known names, raises on an
unknown one. -/
def activations_get (name : String) : Except String ActFn :=
  if name = "relu" then Except.ok ActFn.relu
  else if name = "linear" then Except.ok ActFn.linear
  else Except.error name

/-- The state `Conv2D.__init__` stores (configuration only; weights are
handled by `build`/`call` below). -/
structure Conv2D where
  filters : ℤ
  kernel_size : ℤ × ℤ
  strides : ℤ × ℤ
  padding : Padding
  activation : Option ActFn
  dilation_rate : ℤ × ℤ
  batch_size : ℤ
  channel_axis : ℤ
deriving DecidableEq

/-- `Conv2D.__init__`: stores the arguments unchanged; resolves `activation`
through `activations_get` when it is not `None`; sets `channel_axis` to `0`
under channels-first layout and `-1` otherwise.  The only failure is an
unresolvable activation name. -/
def Conv2D.init (filters : ℤ) (kernel_size strides : ℤ × ℤ) (padding : Padding)
    (activation : Option String) (dilation_rate : ℤ × ℤ) (batch_size : ℤ)
    (data_format : DataFormat) : Except String Conv2D :=
  match activation with
  | none =>
      Except.ok ⟨filters, kernel_size, strides, padding, none, dilation_rate,
        batch_size, if data_format = DataFormat.channels_first then 0 else -1⟩
  | some name =>
      match activations_get name with
      | Except.error e => Except.error e
      | Except.ok f =>
          Except.ok ⟨filters, kernel_size, strides, padding, some f, dilation_rate,
            batch_size, if data_format = DataFormat.channels_first then 0 else -1⟩

/-- `Conv2D()` with every Python default argument
(`filters=32, kernel_size=(3,3), strides=(1,1), padding='VALID',
activation='relu', dilation_rate=(1,1), batch_size=1`). -/
def Conv2D.mkDefault (data_format : DataFormat) : Except String Conv2D :=
  Conv2D.init 32 (3, 3) (1, 1) Padding.VALID (some "relu") (1, 1) 1 data_format

/-- Python indexing on a 4-tuple shape, covering the nonnegative and negative
indices Python accepts (negative indices count from the end). -/
def tupleGet (s : ℤ × ℤ × ℤ × ℤ) (i : ℤ) : ℤ :=
  if i = 0 ∨ i = -4 then s.1
  else if i = 1 ∨ i = -3 then s.2.1
  else if i = 2 ∨ i = -2 then s.2.2.1
  else s.2.2.2

/-- Which distribution an `add_weight` call requests from the host. -/
inductive InitKind
| zeros
| glorotUniform
deriving DecidableEq

/-- One `add_weight` allocation: its name, shape and requested
distribution. -/
structure Weight where
  name : String
  shape : List ℤ
  init : InitKind
deriving DecidableEq

/-- `Conv2D.build`: the two `add_weight` allocations, in source order — the
bias `conv_bias` of shape `(filters,)` from the zeros distribution, then the
kernel of shape `kernel_size + (input_shape[channel_axis], filters)` from the
Glorot-uniform distribution. -/
def Conv2D.build (l : Conv2D) (input_shape : ℤ × ℤ × ℤ × ℤ) : List Weight :=
  [ ⟨"conv_bias", [l.filters], InitKind.zeros⟩,
    ⟨"kernel", [l.kernel_size.1, l.kernel_size.2,
        tupleGet input_shape l.channel_axis, l.filters], InitKind.glorotUniform⟩ ]

/-- A concretely-shaped rank-4 tensor: four extents and the entry at each
index (entries outside the extents are irrelevant to every statement
below). -/
structure Tensor4 where
  d0 : ℕ
  d1 : ℕ
  d2 : ℕ
  d3 : ℕ
  data : ℕ → ℕ → ℕ → ℕ → ℤ

/-- The shape of a rank-4 tensor as the 4-tuple of Python integers. -/
def Tensor4.shape (t : Tensor4) : ℤ × ℤ × ℤ × ℤ :=
  ((t.d0 : ℤ), (t.d1 : ℤ), (t.d2 : ℤ), (t.d3 : ℤ))

/-- A rank-1 tensor (the bias vector). -/
structure Tensor1 where
  n : ℕ
  data : ℕ → ℤ

/-- Elementwise map over a rank-4 tensor (how an activation is applied). -/
def Tensor4.map (f : ℤ → ℤ) (t : Tensor4) : Tensor4 :=
  ⟨t.d0, t.d1, t.d2, t.d3, fun b i j c => f (t.data b i j c)⟩

/-- `tf.keras.backend.conv2d x kernel` exactly as `call` invokes it: with the
backend default `strides=(1,1)`, `padding='valid'` and `dilation_rate=(1,1)`.
Cross-correlation over the valid window positions; the kernel has extents
`(kh, kw, inputChannels, filters)`. -/
def conv2d (x k : Tensor4) : Tensor4 :=
  ⟨x.d0, x.d1 + 1 - k.d0, x.d2 + 1 - k.d1, k.d3,
   fun b i j f =>
     ∑ di ∈ Finset.range k.d0, ∑ dj ∈ Finset.range k.d1, ∑ c ∈ Finset.range k.d2,
       x.data b (i + di) (j + dj) c * k.data di dj c f⟩

/-- `keras.backend.bias_add`: adds the channel's bias entry to every element,
broadcast over batch and spatial axes. -/
def bias_add (y : Tensor4) (bias : Tensor1) : Tensor4 :=
  ⟨y.d0, y.d1, y.d2, y.d3, fun b i j f => y.data b i j f + bias.data f⟩

/-- `Conv2D.call`: convolution through the backend primitive, then bias, then
the stored activation when present.  The built `self.kernel` and `self.bias`
are passed explicitly. -/
def Conv2D.call (l : Conv2D) (kernel : Tensor4) (bias : Tensor1) (x : Tensor4) :
    Tensor4 :=
  let y := conv2d x kernel
  let y2 := bias_add y bias
  match l.activation with
  | some a => Tensor4.map (applyAct a) y2
  | none => y2

/-- `keras.utils.conv_utils.conv_output_length` (external library utility),
for the two padding modes this layer uses; `Int.fdiv` is Python's `//`. -/
def conv_output_length (input_length filter_size : ℤ) (padding : Padding)
    (stride dilation : ℤ) : ℤ :=
  let dilated_filter_size := filter_size + (filter_size - 1) * (dilation - 1)
  let output_length :=
    match padding with
    | Padding.SAME => input_length
    | Padding.VALID => input_length - dilated_filter_size + 1
  Int.fdiv (output_length + stride - 1) stride

/-- `Conv2D.compute_output_shape`: batch size preserved, each spatial axis
through `conv_output_length` with that axis's kernel extent, stride and
dilation, and `filters` as the channel count. -/
def Conv2D.compute_output_shape (l : Conv2D) (input_shape : ℤ × ℤ × ℤ × ℤ) :
    ℤ × ℤ × ℤ × ℤ :=
  (input_shape.1,
   conv_output_length input_shape.2.1 l.kernel_size.1 l.padding l.strides.1
     l.dilation_rate.1,
   conv_output_length input_shape.2.2.1 l.kernel_size.2 l.padding l.strides.2
     l.dilation_rate.2,
   l.filters)

/-- The entries `Conv2D.get_config` adds to the base config.  The
`activation` entry holds `self.activation` — the resolved function object —
exactly as the source stores it. -/
structure Conv2DConfig where
  filters : ℤ
  kernel_size : ℤ × ℤ
  strides : ℤ × ℤ
  padding : Padding
  activation : Option ActFn
  dilation_rate : ℤ × ℤ
  batch_size : ℤ
deriving DecidableEq

/-- `Conv2D.get_config`. -/
def Conv2D.get_config (l : Conv2D) : Conv2DConfig :=
  ⟨l.filters, l.kernel_size, l.strides, l.padding, l.activation,
   l.dilation_rate, l.batch_size⟩

/-- The layer `Conv2D()` constructs with every default argument under the
default channels-last layout. -/
def defaultLayer : Conv2D :=
  ⟨32, (3, 3), (1, 1), Padding.VALID, some ActFn.relu, (1, 1), 1, -1⟩

/-- The default layer with `padding='SAME'` instead. -/
def sameLayer : Conv2D :=
  ⟨32, (3, 3), (1, 1), Padding.SAME, some ActFn.relu, (1, 1), 1, -1⟩

/-- The default layer constructed under channels-first layout. -/
def cfLayer : Conv2D :=
  ⟨32, (3, 3), (1, 1), Padding.VALID, some ActFn.relu, (1, 1), 1, 0⟩

/-- The default layer constructed with `activation=None` passed explicitly. -/
def identityLayer : Conv2D :=
  ⟨32, (3, 3), (1, 1), Padding.VALID, none, (1, 1), 1, -1⟩

/-- A concrete 3×3 kernel tensor for 3 input channels and 32 filters. -/
def K1 : Tensor4 := ⟨3, 3, 3, 32, fun _ _ _ _ => 0⟩

/-- A concrete 32-entry bias vector. -/
def B1 : Tensor1 := ⟨32, fun _ => 0⟩

/-- A concrete input of shape (1, 4, 4, 3). -/
def X1 : Tensor4 := ⟨1, 4, 4, 3, fun _ _ _ _ => 0⟩

/-- A 1×1×1×1 input holding the single entry -1. -/
def X2 : Tensor4 := ⟨1, 1, 1, 1, fun _ _ _ _ => -1⟩

/-- A 1×1×1×1 kernel holding the single entry 1. -/
def K2 : Tensor4 := ⟨1, 1, 1, 1, fun _ _ _ _ => 1⟩

/-- A single-entry zero bias. -/
def B2 : Tensor1 := ⟨1, fun _ => 0⟩

/-- Floor of an integer-by-integer rational division with positive divisor is
integer (Euclidean) division. -/
theorem floor_int_div (n s : ℤ) (hs : 0 < s) : ⌊(n : ℚ) / (s : ℚ)⌋ = n / s := by
  obtain ⟨m, rfl⟩ : ∃ m : ℕ, s = (m : ℤ) := ⟨s.toNat, by omega⟩
  exact_mod_cast Rat.floor_intCast_div_natCast n m

/-- The VALID branch of `conv_output_length` computes the spec's floor
formula. -/
theorem conv_output_length_valid (L kk s d : ℤ) (hs : 0 < s) :
    conv_output_length L kk Padding.VALID s d =
      ⌊((L - (kk - 1) * d - 1 : ℤ) : ℚ) / (s : ℚ)⌋ + 1 := by
  unfold conv_output_length
  rw [Int.fdiv_eq_ediv _ hs.le, floor_int_div _ _ hs]
  have h : L - (kk + (kk - 1) * (d - 1)) + 1 + s - 1 =
      (L - (kk - 1) * d - 1) + 1 * s := by ring
  rw [h, Int.add_mul_ediv_right _ _ hs.ne']

/-- The SAME branch of `conv_output_length` computes the ceiling of
`inputExtent / stride`. -/
theorem conv_output_length_same (L kk s d : ℤ) (hs : 0 < s) :
    conv_output_length L kk Padding.SAME s d = ⌈(L : ℚ) / (s : ℚ)⌉ := by
  unfold conv_output_length
  rw [Int.fdiv_eq_ediv _ hs.le]
  have hsQ : (0 : ℚ) < (s : ℚ) := by exact_mod_cast hs
  symm
  rw [Int.ceil_eq_iff]
  have h2 : ((L + s - 1) / s) * s ≤ L + s - 1 := Int.ediv_mul_le _ hs.ne'
  have h1 : L + s - 1 < ((L + s - 1) / s + 1) * s := Int.lt_ediv_add_one_mul_self _ hs
  constructor
  · rw [lt_div_iff₀ hsQ]
    have h3 : ((L + s - 1) / s - 1) * s < L := by nlinarith
    exact_mod_cast (by exact_mod_cast h3 :
      ((((L + s - 1) / s : ℤ) : ℚ) - 1) * s < L)
  · rw [div_le_iff₀ hsQ]
    have h4 : L ≤ ((L + s - 1) / s) * s := by nlinarith
    exact_mod_cast h4

/-- C2: under VALID padding, with positive extent, kernel, stride and
dilation on an axis, `compute_output_shape` returns
`floor((inputExtent - (kernelExtent-1)*dilation - 1) / stride) + 1` on that
axis; and the default VALID layer maps input shape (1,224,224,3) to
(1,222,222,32). -/
theorem C2_valid_padding_formula :
    (∀ (L kk s d : ℤ), 0 < L → 0 < kk → 0 < s → 0 < d →
      conv_output_length L kk Padding.VALID s d =
        ⌊((L - (kk - 1) * d - 1 : ℤ) : ℚ) / (s : ℚ)⌋ + 1) ∧
    Conv2D.compute_output_shape defaultLayer (1, 224, 224, 3) =
      (1, 222, 222, 32) := by
  constructor
  · intro L kk s d _ _ hs _
    exact conv_output_length_valid L kk s d hs
  · decide

/-- C2 witness: the formula instantiated on the 224-extent axis of the
concrete scenario. -/
theorem C2_valid_padding_formula_witness :
    conv_output_length 224 3 Padding.VALID 1 1 =
      ⌊((224 - (3 - 1) * 1 - 1 : ℤ) : ℚ) / ((1 : ℤ) : ℚ)⌋ + 1 :=
  C2_valid_padding_formula.1 224 3 1 1 (by decide) (by decide) (by decide)
    (by decide)

/-- C3: under SAME padding, with positive extent and stride,
`compute_output_shape` returns `ceil(inputExtent / stride)` on each spatial
axis, independent of kernel extent and dilation; and the default SAME layer
maps input shape (1,224,224,3) to (1,224,224,32). -/
theorem C3_same_padding_formula :
    (∀ (L kk s d : ℤ), 0 < L → 0 < s →
      conv_output_length L kk Padding.SAME s d = ⌈(L : ℚ) / (s : ℚ)⌉) ∧
    (∀ (L kk kj s d dj : ℤ),
      conv_output_length L kk Padding.SAME s d =
        conv_output_length L kj Padding.SAME s dj) ∧
    Conv2D.compute_output_shape sameLayer (1, 224, 224, 3) =
      (1, 224, 224, 32) := by
  refine ⟨?_, ?_, by decide⟩
  · intro L kk s d _ hs
    exact conv_output_length_same L kk s d hs
  · intro L kk kj s d dj
    rfl

/-- C3 witness: the ceiling formula instantiated on the 224-extent axis of
the concrete scenario. -/
theorem C3_same_padding_formula_witness :
    conv_output_length 224 3 Padding.SAME 1 1 =
      ⌈((224 : ℤ) : ℚ) / ((1 : ℤ) : ℚ)⌉ :=
  C3_same_padding_formula.1 224 3 1 1 (by decide) (by decide)

/-- Under VALID padding with unit stride and unit dilation,
`conv_output_length` is `inputExtent - kernelExtent + 1`. -/
theorem conv_output_length_valid_unit (L kk : ℤ) :
    conv_output_length L kk Padding.VALID 1 1 = L - kk + 1 := by
  show Int.fdiv (L - (kk + (kk - 1) * (1 - 1)) + 1 + 1 - 1) 1 = L - kk + 1
  rw [Int.fdiv_eq_ediv _ (by norm_num), Int.ediv_one]
  ring

/-- C1 counterexample: under SAME padding the forward output shape differs
from `compute_output_shape`.  The layer constructed with the default
arguments except `padding='SAME'`, applied to a (1,4,4,3) input with a
(3,3,3,32) kernel, produces a (1,2,2,32) output — the backend primitive is
invoked with its own defaults — while `compute_output_shape` reports
(1,4,4,32). -/
theorem C1_counterexample :
    Conv2D.init 32 (3, 3) (1, 1) Padding.SAME (some "relu") (1, 1) 1
      DataFormat.channels_last = Except.ok sameLayer ∧
    (Conv2D.call sameLayer K1 B1 X1).shape ≠
      Conv2D.compute_output_shape sameLayer X1.shape :=
  ⟨rfl, by decide⟩

/-- C1 amended: when the stored configuration is VALID padding, strides (1,1)
and dilation (1,1) — the fixed arguments `call` hands the backend — and the
kernel matches the configured `kernel_size` and `filters` and fits inside the
input's spatial extents, the forward output (rank 4 by construction) has on
every axis the extent returned by `compute_output_shape`. -/
theorem C1_amended_forward_shape (l : Conv2D) (k : Tensor4) (bias : Tensor1)
    (x : Tensor4)
    (hpad : l.padding = Padding.VALID)
    (hstr : l.strides = (1, 1)) (hdil : l.dilation_rate = (1, 1))
    (hks : l.kernel_size = ((k.d0 : ℤ), (k.d1 : ℤ)))
    (hf : l.filters = (k.d3 : ℤ))
    (h1 : k.d0 ≤ x.d1) (h2 : k.d1 ≤ x.d2) :
    (Conv2D.call l k bias x).shape = Conv2D.compute_output_shape l x.shape := by
  have hcall : (Conv2D.call l k bias x).shape =
      ((x.d0 : ℤ), ((x.d1 + 1 - k.d0 : ℕ) : ℤ), ((x.d2 + 1 - k.d1 : ℕ) : ℤ),
        (k.d3 : ℤ)) := by
    unfold Conv2D.call
    cases l.activation
    · rfl
    · rfl
  rw [hcall]
  simp only [Conv2D.compute_output_shape, Tensor4.shape, hpad, hstr, hdil,
    hks, hf, conv_output_length_valid_unit, Prod.mk.injEq]
  refine ⟨trivial, ?_, ?_, trivial⟩
  · omega
  · omega

/-- C1 witness: with the all-defaults layer (VALID, strides (1,1), dilation
(1,1)), a 3×3×3×32 kernel and a (1,4,4,3) input, the forward output shape
equals `compute_output_shape`. -/
theorem C1_amended_forward_shape_witness :
    (Conv2D.call defaultLayer K1 B1 X1).shape =
      Conv2D.compute_output_shape defaultLayer X1.shape :=
  C1_amended_forward_shape defaultLayer K1 B1 X1 rfl rfl rfl (by decide)
    (by decide) (by decide) (by decide)

/-- C4: `get_config` stores the resolved activation function object — for the
default layer, the value resolved from the string `"relu"` — not the
activation's name; the config record carries the function, so name-based
round-tripping is broken as the spec's design note flags. -/
theorem C4_get_config_stores_resolved_activation :
    (Conv2D.get_config defaultLayer).activation = some ActFn.relu ∧
    Conv2D.get_config defaultLayer =
      ⟨32, (3, 3), (1, 1), Padding.VALID, some ActFn.relu, (1, 1), 1⟩ :=
  ⟨rfl, rfl⟩

/-- C5 counterexample: `filters = 0` and all-zero kernel size, strides and
dilation are non-positive, yet construction succeeds and returns a layer
holding exactly that configuration — no `InvalidConfiguration` error
exists. -/
theorem C5_counterexample :
    Conv2D.init 0 (0, 0) (0, 0) Padding.VALID (some "relu") (0, 0) 1
      DataFormat.channels_last =
      Except.ok ⟨0, (0, 0), (0, 0), Padding.VALID, some ActFn.relu, (0, 0), 1, -1⟩ :=
  rfl

/-- C5 amended: the constructor performs no validation — every value of
`filters`, `kernel_size`, `strides`, `dilation_rate` and `padding` is stored
as given and a layer is constructed; the only configure-time failure is an
activation name that does not resolve. -/
theorem C5_amended_no_validation (f : ℤ) (ks s d : ℤ × ℤ) (p : Padding)
    (b : ℤ) (fmt : DataFormat) :
    (Conv2D.init f ks s p none d b fmt).isOk = true ∧
    (Conv2D.init f ks s p (some "relu") d b fmt).isOk = true ∧
    ∀ name, activations_get name = Except.error name →
      Conv2D.init f ks s p (some name) d b fmt = Except.error name := by
  refine ⟨rfl, rfl, fun name hname => ?_⟩
  simp only [Conv2D.init, hname]

/-- C5 witness: construction with non-positive filters succeeds, and the
unresolvable name "bogus" is the one thing that fails. -/
theorem C5_amended_no_validation_witness :
    (Conv2D.init 0 (0, 0) (0, 0) Padding.VALID none (0, 0) 1
      DataFormat.channels_last).isOk = true ∧
    Conv2D.init 0 (0, 0) (0, 0) Padding.VALID (some "bogus") (0, 0) 1
      DataFormat.channels_last = Except.error "bogus" :=
  ⟨(C5_amended_no_validation 0 (0, 0) (0, 0) (0, 0) Padding.VALID 1
      DataFormat.channels_last).1,
   (C5_amended_no_validation 0 (0, 0) (0, 0) (0, 0) Padding.VALID 1
      DataFormat.channels_last).2.2 "bogus" rfl⟩

/-- C6 counterexample: the layer constructed with every argument omitted
resolves the default `'relu'`, so on a 1×1 input holding -1 with a unit
kernel and zero bias, forward returns 0 while raw convolution plus bias
is -1 — forward is not the identity on the convolution output. -/
theorem C6_counterexample :
    Conv2D.mkDefault DataFormat.channels_last = Except.ok defaultLayer ∧
    (Conv2D.call defaultLayer K2 B2 X2).data 0 0 0 0 ≠
      (bias_add (conv2d X2 K2) B2).data 0 0 0 0 :=
  ⟨rfl, by decide⟩

/-- C6 amended: constructing without supplying an activation succeeds, but
the layer applies `relu` — the Python default argument — to the convolution
output, not the identity; identity behaviour requires passing
`activation=None` explicitly. -/
theorem C6_amended_default_activation_is_relu :
    Conv2D.mkDefault DataFormat.channels_last = Except.ok defaultLayer ∧
    defaultLayer.activation = some ActFn.relu ∧
    (∀ (k : Tensor4) (bias : Tensor1) (x : Tensor4),
      Conv2D.call defaultLayer k bias x =
        Tensor4.map (applyAct ActFn.relu) (bias_add (conv2d x k) bias)) ∧
    Conv2D.init 32 (3, 3) (1, 1) Padding.VALID none (1, 1) 1
      DataFormat.channels_last = Except.ok identityLayer ∧
    (∀ (k : Tensor4) (bias : Tensor1) (x : Tensor4),
      Conv2D.call identityLayer k bias x = bias_add (conv2d x k) bias) :=
  ⟨rfl, rfl, fun _ _ _ => rfl, rfl, fun _ _ _ => rfl⟩

/-- C7: for every input shape whose channel count (the last axis, read
through `channel_axis = -1` under channels-last layout) is positive, `build`
performs exactly two allocations: the bias of shape `(filters,)` from the
zeros distribution and the kernel of shape `(kh, kw, inputChannels, filters)`
from the Glorot-uniform distribution. -/
theorem C7_build_allocates_kernel_and_bias (l : Conv2D) (b h w c : ℤ)
    (hax : l.channel_axis = -1) (_hc : 0 < c) :
    Conv2D.build l (b, h, w, c) =
      [ ⟨"conv_bias", [l.filters], InitKind.zeros⟩,
        ⟨"kernel", [l.kernel_size.1, l.kernel_size.2, c, l.filters],
          InitKind.glorotUniform⟩ ] ∧
    (Conv2D.build l (b, h, w, c)).length = 2 := by
  refine ⟨?_, rfl⟩
  simp [Conv2D.build, tupleGet, hax]

/-- C7 witness: the default layer built on input shape (1,224,224,3)
allocates the (32,) zero bias and the (3,3,3,32) Glorot-uniform kernel. -/
theorem C7_build_allocates_kernel_and_bias_witness :
    Conv2D.build defaultLayer (1, 224, 224, 3) =
      [ ⟨"conv_bias", [32], InitKind.zeros⟩,
        ⟨"kernel", [3, 3, 3, 32], InitKind.glorotUniform⟩ ] ∧
    (Conv2D.build defaultLayer (1, 224, 224, 3)).length = 2 :=
  C7_build_allocates_kernel_and_bias defaultLayer 1 224 224 3 rfl (by decide)

/-- C8 counterexample: with the default 3×3 VALID layer on a (1,2,2,3) input
the computed spatial extents are 0 — non-positive — yet
`compute_output_shape` returns the shape (1,0,0,32); the function is total
and no `InvalidShape` error is raised. -/
theorem C8_counterexample :
    Conv2D.compute_output_shape defaultLayer (1, 2, 2, 3) = (1, 0, 0, 32) := by
  decide

/-- C8 amended: on an axis where the VALID formula is non-positive,
`compute_output_shape`'s per-axis computation still returns that value
(which is ≤ 0) rather than failing. -/
theorem C8_amended_nonpositive_extent_returned (L kk s d : ℤ) (hs : 0 < s)
    (hnp : ⌊((L - (kk - 1) * d - 1 : ℤ) : ℚ) / (s : ℚ)⌋ + 1 ≤ 0) :
    conv_output_length L kk Padding.VALID s d ≤ 0 ∧
    conv_output_length L kk Padding.VALID s d =
      ⌊((L - (kk - 1) * d - 1 : ℤ) : ℚ) / (s : ℚ)⌋ + 1 := by
  have h := conv_output_length_valid L kk s d hs
  exact ⟨h ▸ hnp, h⟩

/-- C8 witness: a 3-wide kernel on a 2-wide axis with unit stride and
dilation yields the non-positive extent 0, and it is returned. -/
theorem C8_amended_nonpositive_extent_returned_witness :
    conv_output_length 2 3 Padding.VALID 1 1 ≤ 0 ∧
    conv_output_length 2 3 Padding.VALID 1 1 =
      ⌊((2 - (3 - 1) * 1 - 1 : ℤ) : ℚ) / ((1 : ℤ) : ℚ)⌋ + 1 :=
  C8_amended_nonpositive_extent_returned 2 3 1 1 (by norm_num) (by norm_num)

/-- C9: two layers with the same resolved activation (and the same remaining
non-geometry configuration) that differ only in `strides`, `padding` or
`dilation_rate` compute identical forward outputs on the same weights and
input, because `call` hands the backend primitive its fixed defaults —
stride (1,1), valid padding, dilation (1,1) — and never reads the stored
geometry fields. -/
theorem C9_forward_ignores_configured_geometry (l1 l2 : Conv2D)
    (k : Tensor4) (bias : Tensor1) (x : Tensor4)
    (_hf : l1.filters = l2.filters) (_hk : l1.kernel_size = l2.kernel_size)
    (ha : l1.activation = l2.activation) (_hb : l1.batch_size = l2.batch_size)
    (_hc : l1.channel_axis = l2.channel_axis) :
    Conv2D.call l1 k bias x = Conv2D.call l2 k bias x ∧
    Conv2D.call l1 k bias x =
      Conv2D.call ⟨l1.filters, l1.kernel_size, (1, 1), Padding.VALID,
        l1.activation, (1, 1), l1.batch_size, l1.channel_axis⟩ k bias x := by
  constructor
  · unfold Conv2D.call
    rw [ha]
  · rfl

/-- C9 witness: the default VALID layer and the same layer reconfigured to
SAME padding produce the same forward output on concrete weights and
input. -/
theorem C9_forward_ignores_configured_geometry_witness :
    Conv2D.call defaultLayer K1 B1 X1 = Conv2D.call sameLayer K1 B1 X1 :=
  (C9_forward_ignores_configured_geometry defaultLayer sameLayer K1 B1 X1
    rfl rfl rfl rfl rfl).1

/-- C10: constructed under channels-first layout, the layer fixes
`channel_axis` to 0, so `build` on a (batch, channels, height, width) shape
reads position 0 — the batch axis — and allocates the kernel with the batch
size in its input-channel dimension. -/
theorem C10_channels_first_reads_batch_axis :
    Conv2D.init 32 (3, 3) (1, 1) Padding.VALID (some "relu") (1, 1) 1
      DataFormat.channels_first = Except.ok cfLayer ∧
    cfLayer.channel_axis = 0 ∧
    ∀ (b c h w : ℤ),
      Conv2D.build cfLayer (b, c, h, w) =
        [ ⟨"conv_bias", [32], InitKind.zeros⟩,
          ⟨"kernel", [3, 3, b, 32], InitKind.glorotUniform⟩ ] := by
  refine ⟨rfl, rfl, fun b c h w => ?_⟩
  norm_num [Conv2D.build, tupleGet, cfLayer]
